import Mathlib

/-!
Verification of the speaking-assessment pipeline (audio feature extraction,
transcript analysis, scoring engine) of this repository.

Modelling conventions, used throughout:

* JavaScript numbers are modelled as exact rationals (`ℚ`).  Decimal literals
  of the source (`0.01`, `0.3`, `2.5`, ...) are the corresponding rationals.
  The spots where the source rounds are modelled explicitly:
  `Math.round x` is `jsRound` (floor of `x + 1/2`), `x.toFixed(d)` followed by
  `parseFloat` is `jsToFixed d` (all values the source formats this way are
  nonnegative, where `toFixed` rounds half away from zero, i.e. half up).
* `Math.sqrt` is an arbitrary function argument `sqrtf : ℚ → ℚ`: its exact
  values never influence any property proved below (they only flow into the
  volume-consistency, energy and pitch-variation magnitudes).
* A JavaScript value that can be `NaN` because of a `0/0` is modelled as an
  `Option ℚ` with `none` for `NaN` where that matters (the transcript ratio
  fields); `x || d` on numbers is modelled by `jsNumOr` (`0` and `NaN` are
  falsy).
* Strings kept by the pipeline are copied from the source, except that emoji
  prefixes of titles/icons and the generated HTML markup of
  `generateDetailedFeedback` are not reproduced: the feedback data is kept as
  a structure instead.  No claim below concerns those presentation strings.
-/

/-- JavaScript `Math.round`: round half towards positive infinity. -/
def jsRound (q : ℚ) : ℤ := ⌊q + 1/2⌋

/-- JavaScript `parseFloat(x.toFixed(d))` for a nonnegative `x`:
round to `d` decimal places, half away from zero. -/
def jsToFixed (d : ℕ) (q : ℚ) : ℚ := ((⌊q * (10:ℚ)^d + 1/2⌋ : ℤ) : ℚ) / (10:ℚ)^d

/-- JavaScript `x || dflt` for a number `x` that is present and not `NaN`:
`0` is falsy, every other number is truthy. -/
def jsNumOr (q : ℚ) (dflt : ℚ) : ℚ := if q = 0 then dflt else q

/-- JavaScript `parseFloat(x) || dflt` where `x` may be the string `"NaN"`
(modelled as `none`): both `NaN` and `0` fall back to the default. -/
def jsOptOr (q : Option ℚ) (dflt : ℚ) : ℚ :=
  match q with
  | none => dflt
  | some v => if v = 0 then dflt else v

namespace AudioProcessor

/-- The decoded audio handed to the extractor: mono PCM samples and the
sample rate (`this.audioBuffer` in `audio-processor.js`). -/
structure AudioBuffer where
  samples : List ℚ
  sampleRate : ℚ
deriving Repr, DecidableEq

/-- Result of `analyzeDuration`. -/
structure DurationAnalysis where
  score : ℤ
  feedback : String
  minutes : ℚ
deriving Repr, DecidableEq

/-- `analyzeDuration` of `audio-processor.js` (lines 125-152): banding over
`minutes = duration/60`. -/
def analyzeDuration (duration : ℚ) : DurationAnalysis :=
  let minutes := duration / 60
  if minutes < 1/2 then
    { score := 40, feedback := "Too short. Try to speak for at least 1-2 minutes", minutes := minutes }
  else if minutes < 1 then
    { score := 60, feedback := "A bit short. Aim for 1.5-2.5 minutes for optimal assessment", minutes := minutes }
  else if minutes ≤ 3 then
    { score := 95, feedback := "Perfect duration! Well-balanced speaking time", minutes := minutes }
  else if minutes ≤ 4 then
    { score := 85, feedback := "Good length, but slightly long. Try to be more concise", minutes := minutes }
  else
    { score := 70, feedback := "Too long. Practice being more concise and focused", minutes := minutes }

/-- Result of `analyzeVolume`. -/
structure VolumeAnalysis where
  average : ℚ
  consistency : ℚ
  energy : ℚ
deriving Repr, DecidableEq

/-- `analyzeVolume` of `audio-processor.js` (lines 155-181).  The loop sums
absolute amplitudes and their squares; on an empty buffer the JS `0/0` is
`NaN` while `ℚ` division totalises it to `0` — no theorem below depends on
the volume statistics of an empty buffer. -/
def analyzeVolume (sqrtf : ℚ → ℚ) (channelData : List ℚ) : VolumeAnalysis :=
  let length : ℚ := channelData.length
  let sum := (channelData.map (fun v => |v|)).sum
  let sumSquares := (channelData.map (fun v => |v| * |v|)).sum
  let average := sum / length
  let variance := sumSquares / length - average * average
  let stdDev := sqrtf (max 0 variance)
  let consistency := if average > 0 then max 0 (min 1 (1 - stdDev / average)) else 0
  let energy := sqrtf (sumSquares / length)
  { average := jsToFixed 6 average
    consistency := jsToFixed 6 consistency
    energy := jsToFixed 6 energy }

/-- The lengths of the runs of consecutive below-threshold (`|x| < 0.01`)
samples, scanning left to right with `cur` silent samples already pending.
Every maximal silent run appears as an entry; in addition a `0` entry is
produced for each loud sample with no silent predecessor, and the trailing
(possibly empty) run is included.  Used to characterise `detectPauses`. -/
def pauseRuns : List ℚ → ℕ → List ℕ
  | [], cur => [cur]
  | x :: xs, cur =>
    if |x| < 1/100 then pauseRuns xs (cur + 1) else cur :: pauseRuns xs 0

/-- The pause-detection loop of `detectPauses` (`audio-processor.js` lines
189-209) in structural-recursive form: `cur` is the running count of
consecutive silent samples (`currentPause`); a loud sample, or the end of the
buffer, closes the run and counts it when it has at least `m` samples.
Returns (pause count, total pause duration in seconds, unrounded). -/
def detectRaw (m : ℕ) (sr : ℚ) : List ℚ → ℕ → ℕ × ℚ
  | [], cur => if m ≤ cur then (1, (cur : ℚ) / sr) else (0, 0)
  | x :: xs, cur =>
    if |x| < 1/100 then detectRaw m sr xs (cur + 1)
    else
      let r := detectRaw m sr xs 0
      if m ≤ cur then (r.1 + 1, (cur : ℚ) / sr + r.2) else r

/-- Result of `detectPauses`. -/
structure PauseAnalysis where
  count : ℕ
  totalDuration : ℚ
  score : ℤ
deriving Repr, DecidableEq

/-- `detectPauses` of `audio-processor.js` (lines 184-228): silence threshold
`0.01`, minimum run `Math.floor(0.3 * sampleRate)` samples, trailing run
included, then the pause-count banding. -/
def detectPauses (channelData : List ℚ) (sampleRate : ℚ) : PauseAnalysis :=
  let minPauseSamples := (⌊(3/10 : ℚ) * sampleRate⌋).toNat
  let r := detectRaw minPauseSamples sampleRate channelData 0
  let pauseCount := r.1
  let score : ℤ :=
    if pauseCount < 3 then 60
    else if 3 ≤ pauseCount ∧ pauseCount ≤ 15 then 95
    else if 15 < pauseCount ∧ pauseCount ≤ 25 then 80
    else 65
  { count := pauseCount, totalDuration := jsToFixed 2 r.2, score := score }

/-- Result of `estimateSpeechRate`. -/
structure SpeechRateAnalysis where
  rate : ℤ
  score : ℤ
  feedback : String
deriving Repr, DecidableEq

/-- `estimateSpeechRate` of `audio-processor.js` (lines 231-258).  On an
empty buffer the JS `x/0` is `Infinity` (score 65) while `ℚ` gives `0`
(score 70); no theorem below depends on that value. -/
def estimateSpeechRate (duration : ℚ) (pauseAnalysis : PauseAnalysis) : SpeechRateAnalysis :=
  let activeSpeechTime := max 1 (duration - pauseAnalysis.totalDuration)
  let estimatedWords := activeSpeechTime * (5/2)
  let wordsPerMinute := estimatedWords / duration * 60
  if wordsPerMinute < 100 then
    { rate := jsRound wordsPerMinute, score := 70,
      feedback := "Speaking too slowly. Try to speak more naturally" }
  else if 100 ≤ wordsPerMinute ∧ wordsPerMinute ≤ 160 then
    { rate := jsRound wordsPerMinute, score := 95,
      feedback := "Excellent speaking pace! Natural and clear" }
  else if 160 < wordsPerMinute ∧ wordsPerMinute ≤ 180 then
    { rate := jsRound wordsPerMinute, score := 85,
      feedback := "Speaking a bit fast. Try to slow down slightly" }
  else
    { rate := jsRound wordsPerMinute, score := 65,
      feedback := "Speaking too fast. Slow down for better clarity" }

/-- Result of `analyzePitch`.  The source stores `variation` as a
`toFixed(3)` string (`'0.000'` when no window survives); we keep the rounded
rational value. -/
structure PitchAnalysis where
  variation : ℚ
  score : ℤ
deriving Repr, DecidableEq

/-- `analyzePitch` of `audio-processor.js` (lines 261-307): 50ms windows of
mean absolute amplitude, windows with mean `≤ 0.001` discarded, variation =
stddev/mean over the survivors, then banding.  For a nonempty buffer with
`windowSize = ⌊0.05 × sampleRate⌋ = 0` (sample rate in `[0, 20)`) the JS
loop never terminates (`windows = Infinity`); the model's `ℕ` division
yields the empty-window result there instead, and no theorem below asserts
anything about extraction on that region.  For a negative sample rate the
JS loop body is skipped (negative window count) and the model agrees
(empty window list, score 50). -/
def analyzePitch (sqrtf : ℚ → ℚ) (channelData : List ℚ) (sampleRate : ℚ) : PitchAnalysis :=
  let windowSize := (⌊sampleRate * (5/100)⌋).toNat
  let windows := channelData.length / windowSize
  let pitchValues :=
    ((List.range windows).map (fun i =>
      (((channelData.drop (i * windowSize)).take windowSize).map (fun x => |x|)).sum
        / (windowSize : ℚ))).filter (fun a => a > 1/1000)
  if pitchValues.isEmpty then
    { variation := 0, score := 50 }
  else
    let mean := pitchValues.sum / (pitchValues.length : ℚ)
    let variance := (pitchValues.map (fun v => (v - mean) ^ 2)).sum / (pitchValues.length : ℚ)
    let variation := if mean > 0 then sqrtf variance / mean else 0
    let score : ℤ :=
      if variation < 1/5 then 65
      else if 1/5 ≤ variation ∧ variation ≤ 3/5 then 95
      else 75
    { variation := jsToFixed 3 variation, score := score }

/-- `estimateClarity` of `audio-processor.js` (lines 310-313). -/
def estimateClarity (volumeAnalysis : VolumeAnalysis) (pitchAnalysis : PitchAnalysis) : ℤ :=
  jsRound (min 100 (max 0 (volumeAnalysis.consistency * 50 + (pitchAnalysis.score : ℚ) / 2)))

/-- The `FeatureSet` assembled by `extractFeatures` (lines 102-117). -/
structure Features where
  duration : ℚ
  durationScore : ℤ
  durationFeedback : String
  averageVolume : ℚ
  volumeConsistency : ℚ
  energyLevel : ℚ
  totalPauses : ℕ
  pauseDuration : ℚ
  pauseScore : ℤ
  speechRate : ℤ
  speechRateScore : ℤ
  pitchVariation : ℚ
  pitchScore : ℤ
  clarity : ℤ
deriving Repr, DecidableEq

/-- The body of `extractFeatures` once a buffer is available: run the five
analyses and assemble the `FeatureSet`.  `duration` is the Web Audio buffer
duration, i.e. sample count over sample rate. -/
def buildFeatures (sqrtf : ℚ → ℚ) (samples : List ℚ) (sampleRate : ℚ) : Features :=
  let duration : ℚ := (samples.length : ℚ) / sampleRate
  let durationAnalysis := analyzeDuration duration
  let volumeAnalysis := analyzeVolume sqrtf samples
  let pauseAnalysis := detectPauses samples sampleRate
  let speechRateAnalysis := estimateSpeechRate duration pauseAnalysis
  let pitchAnalysis := analyzePitch sqrtf samples sampleRate
  let clarity := estimateClarity volumeAnalysis pitchAnalysis
  { duration := duration
    durationScore := durationAnalysis.score
    durationFeedback := durationAnalysis.feedback
    averageVolume := volumeAnalysis.average
    volumeConsistency := volumeAnalysis.consistency
    energyLevel := volumeAnalysis.energy
    totalPauses := pauseAnalysis.count
    pauseDuration := pauseAnalysis.totalDuration
    pauseScore := pauseAnalysis.score
    speechRate := speechRateAnalysis.rate
    speechRateScore := speechRateAnalysis.score
    pitchVariation := pitchAnalysis.variation
    pitchScore := pitchAnalysis.score
    clarity := clarity }

/-- `extractFeatures` of `audio-processor.js` (lines 69-122).  The only
failure in the source is `throw new Error('No audio buffer available')` when
`this.audioBuffer` is absent; there is no validation of the buffer contents
or the sample rate. -/
def extractFeatures (sqrtf : ℚ → ℚ) (audioBuffer : Option AudioBuffer) : Except String Features :=
  match audioBuffer with
  | none => .error "No audio buffer available"
  | some buffer => .ok (buildFeatures sqrtf buffer.samples buffer.sampleRate)

end AudioProcessor

namespace Transcriber

/-- JavaScript regex `\w`: ASCII letters, digits and underscore. -/
def isWordChar (c : Char) : Bool := c.isAlphanum || c = '_'

/-- Whether `pat` is a prefix of `s` (character lists). -/
def startsWithL : List Char → List Char → Bool
  | [], _ => true
  | _ :: _, [] => false
  | a :: as, b :: bs => a == b && startsWithL as bs

/-- Whether `pat` occurs as a contiguous substring of `s`; models the
JavaScript `String.prototype.includes` used by the indicator checks. -/
def containsSub (pat : List Char) : List Char → Bool
  | [] => pat.isEmpty
  | s@(_ :: rest) => startsWithL pat s || containsSub pat rest

/-- String-level `includes` of the marker `pat` in an already lower-cased
character list. -/
def lowerIncludes (textLower : List Char) (pat : String) : Bool :=
  containsSub pat.data textLower

/-- ASCII lower-casing of a character list; models
`String.prototype.toLowerCase` on the ASCII transcripts in scope. -/
def toLowerChars (l : List Char) : List Char := l.map Char.toLower

/-- Split a character list at every character satisfying `p`, keeping empty
pieces — the behaviour of `String.prototype.split` with a character class;
collapsing regexes like `/\s+/` or `/[.!?]+/` agree with this after the
empty pieces are filtered out, as the source does. -/
def splitChars (p : Char → Bool) (l : List Char) : List (List Char) :=
  go [] l
where
  go (acc : List Char) : List Char → List (List Char)
    | [] => [acc.reverse]
    | c :: cs => if p c then acc.reverse :: go [] cs else go (c :: acc) cs

/-- Whether a fragment trims to something nonempty
(`s.trim().length > 0`). -/
def hasNonWs (l : List Char) : Bool := l.any (fun c => !c.isWhitespace)

/-- Whether the whole-word pattern `pat` matches at the start of `s`, with
`prev` the character just before (if any).  For a pattern that begins and
ends with word characters — every filler phrase does — the regex `\b...\b`
reduces to: the neighbouring characters, when present, are non-word. -/
def matchesAt (pat : List Char) (prev : Option Char) (s : List Char) : Bool :=
  (s.take pat.length == pat) &&
  (match prev with | none => true | some c => !isWordChar c) &&
  (match s.drop pat.length with | [] => true | c :: _ => !isWordChar c)

/-- Count the match positions of the whole-word pattern `pat` in `s`.  For
the filler phrases (no phrase overlaps itself under the word-boundary
constraint) this equals the global, non-overlapping count of the source
regex `new RegExp('\\b' + filler + '\\b', 'gi')`. -/
def countOccAux (pat : List Char) : Option Char → List Char → ℕ
  | _, [] => 0
  | prev, s@(c :: rest) =>
    (if matchesAt pat prev s then 1 else 0) + countOccAux pat (some c) rest

/-- Case-insensitive whole-word occurrence count of `pat` in `text`
(both are compared lower-cased, as the `i` flag does for ASCII). -/
def countOcc (pat : String) (text : String) : ℕ :=
  countOccAux (toLowerChars pat.data) none (toLowerChars text.data)

/-- Keep the first occurrence of each element, in order — the semantics of
`[...new Set(list)]` and of JS `Set` insertion used by the source. -/
def dedupFirst : List String → List String :=
  go []
where
  go (seen : List String) : List String → List String
    | [] => []
    | x :: xs => if seen.contains x then go seen xs else x :: go (x :: seen) xs

/-- The fixed filler-word list of `analyzeTranscript` (transcriber.js line 157). -/
def fillerWordList : List String :=
  ["um", "uh", "like", "you know", "basically", "actually",
   "literally", "so", "well", "i mean", "kind of", "sort of"]

/-- The curated advanced-vocabulary lexicon (transcriber.js lines 206-217). -/
def advancedWordList : List String :=
  ["furthermore", "moreover", "nevertheless", "consequently", "subsequently",
   "particularly", "significantly", "essentially", "predominantly", "fundamentally",
   "comprehensive", "substantial", "considerable", "remarkable", "extraordinary",
   "implement", "establish", "demonstrate", "illustrate", "emphasize",
   "perspective", "approach", "aspect", "factor", "impact",
   "enhance", "facilitate", "contribute", "integrate", "accommodate",
   "environment", "technology", "development", "opportunity", "experience",
   "sustainable", "innovative", "efficient", "effective", "beneficial",
   "analyze", "evaluate", "assess", "determine", "investigate",
   "phenomenon", "methodology", "hypothesis", "paradigm", "synthesis"]

/-- `detectAdvancedVocabulary` (transcriber.js lines 204-236): curated hits
first (in lexicon order), then tokens of length ≥ 8 not already found (in
token order), de-duplicated keeping first occurrences, capped at 20. -/
def detectAdvancedVocabulary (words : List String) : List String :=
  let foundCurated := advancedWordList.filter (fun w => words.contains w)
  let found := addLong foundCurated words
  (dedupFirst found).take 20
where
  addLong (acc : List String) : List String → List String
    | [] => acc
    | w :: ws => addLong (if w.length ≥ 8 && !(acc.contains w) then acc ++ [w] else acc) ws

/-- Grammar indicator flags and score (`analyzeGrammarIndicators`). -/
structure GrammarIndicators where
  hasComplexSentences : Bool
  hasConditionals : Bool
  hasPerfectTenses : Bool
  hasPassiveVoice : Bool
  score : ℤ
deriving Repr, DecidableEq

/-- `analyzeGrammarIndicators` of transcriber.js (lines 238-273):
case-insensitive substring presence against fixed marker lists; conditionals
require at least two distinct markers; score starts at 50, adds
`+15/+10/+10/+5`, capped at 100. -/
def analyzeGrammarIndicators (text : String) : GrammarIndicators :=
  let lower := toLowerChars text.data
  let complexMarkers := ["although", "whereas", "while", "despite", "unless", "provided that"]
  let hasComplexSentences := complexMarkers.any (fun m => lowerIncludes lower m)
  let conditionalMarkers := ["if", "would", "could", "might", "should"]
  let conditionalCount := (conditionalMarkers.filter (fun m => lowerIncludes lower m)).length
  let hasConditionals := conditionalCount ≥ 2
  let perfectMarkers := ["have been", "has been", "had been", "have had", "has had"]
  let hasPerfectTenses := perfectMarkers.any (fun m => lowerIncludes lower m)
  let passiveMarkers := ["is done", "was done", "been done", "be done", "is made", "was made"]
  let hasPassiveVoice := passiveMarkers.any (fun m => lowerIncludes lower m)
  let score : ℤ := 50 + (if hasComplexSentences then 15 else 0)
    + (if hasConditionals then 10 else 0)
    + (if hasPerfectTenses then 10 else 0)
    + (if hasPassiveVoice then 5 else 0)
  { hasComplexSentences := hasComplexSentences
    hasConditionals := hasConditionals
    hasPerfectTenses := hasPerfectTenses
    hasPassiveVoice := hasPassiveVoice
    score := min 100 score }

/-- Coherence indicator flags and score (`analyzeCoherenceIndicators`). -/
structure CoherenceIndicators where
  hasIntroduction : Bool
  hasConclusion : Bool
  hasTransitionWords : Bool
  transitionWordsUsed : List String
  score : ℤ
deriving Repr, DecidableEq

/-- The fixed 15-item transition-word list (transcriber.js lines 297-300). -/
def transitionWords : List String :=
  ["firstly", "secondly", "thirdly", "however", "therefore",
   "moreover", "furthermore", "additionally", "nevertheless",
   "on the other hand", "for example", "for instance",
   "as a result", "consequently", "in addition"]

/-- `analyzeCoherenceIndicators` of transcriber.js (lines 275-317): marker
membership for introduction/conclusion phrases and transition words; score
starts at 50, `+15` each for introduction and conclusion, `+5` per distinct
transition word, capped at 100. -/
def analyzeCoherenceIndicators (text : String) : CoherenceIndicators :=
  let lower := toLowerChars text.data
  let introMarkers := ["i would like to", "i want to talk about", "let me", "first of all",
    "to begin with", "i think", "in my opinion"]
  let hasIntroduction := introMarkers.any (fun m => lowerIncludes lower m)
  let conclusionMarkers := ["in conclusion", "to sum up", "finally", "overall",
    "to conclude", "in summary", "all in all"]
  let hasConclusion := conclusionMarkers.any (fun m => lowerIncludes lower m)
  let transitionWordsUsed := transitionWords.filter (fun tw => lowerIncludes lower tw)
  let hasTransitionWords := transitionWordsUsed.length > 0
  let score : ℤ := 50 + (if hasIntroduction then 15 else 0)
    + (if hasConclusion then 15 else 0)
    + (if hasTransitionWords then (transitionWordsUsed.length : ℤ) * 5 else 0)
  { hasIntroduction := hasIntroduction
    hasConclusion := hasConclusion
    hasTransitionWords := hasTransitionWords
    transitionWordsUsed := transitionWordsUsed
    score := min 100 score }

/-- The `TranscriptAnalysis` record produced by `analyzeTranscript`.  The
ratio fields the source stores as `toFixed(1)` strings are kept as rounded
rationals; `none` stands for the string `"NaN"` that JavaScript produces
when the underlying division was `0/0`. -/
structure TranscriptAnalysis where
  wordCount : ℕ
  uniqueWordCount : ℕ
  vocabularyRichness : Option ℚ
  sentenceCount : ℕ
  avgWordsPerSentence : ℚ
  avgWordLength : Option ℚ
  fillerWordCount : ℕ
  fillerWords : List (String × ℕ)
  fillerRatio : Option ℚ
  advancedWords : List String
  advancedWordCount : ℕ
  grammarIndicators : GrammarIndicators
  coherenceIndicators : CoherenceIndicators
  rawText : String
deriving Repr, DecidableEq

/-- `getEmptyAnalysis` of transcriber.js (lines 319-336).  The source object
gives the indicator sub-objects only a `score` field; the absent flags read
as `undefined`, i.e. false. -/
def getEmptyAnalysis : TranscriptAnalysis :=
  { wordCount := 0
    uniqueWordCount := 0
    vocabularyRichness := some 0
    sentenceCount := 0
    avgWordsPerSentence := 0
    avgWordLength := some 0
    fillerWordCount := 0
    fillerWords := []
    fillerRatio := some 0
    advancedWords := []
    advancedWordCount := 0
    grammarIndicators := ⟨false, false, false, false, 50⟩
    coherenceIndicators := ⟨false, false, false, [], 50⟩
    rawText := "" }

/-- `analyzeTranscript` of transcriber.js (lines 142-202).  Tokenisation is
whitespace splitting of the lower-cased text; sentences split on `.`/`!`/`?`
discarding blank fragments; filler phrases are counted with case-insensitive
whole-word matching against the text.  When `wordCount = 0` (a nonempty,
all-whitespace text) the two `x / wordCount` divisions are `0/0`, so the
richness and filler ratios are `NaN` (`none`). -/
def analyzeTranscript (text : String) : TranscriptAnalysis :=
  if text = "" then getEmptyAnalysis
  else
    let words := ((splitChars Char.isWhitespace (toLowerChars text.data)).map String.mk).filter
      (fun w => w ≠ "")
    let sentences := ((splitChars (fun c => c = '.' || c = '!' || c = '?') text.data).map
      String.mk).filter (fun s => hasNonWs s.data)
    let wordCount := words.length
    let uniqueWordCount := (dedupFirst words).length
    let fillerPairs := fillerWordList.filterMap (fun filler =>
      let n := countOcc filler text
      if n = 0 then none else some (filler, n))
    let fillerCount := (fillerPairs.map (fun p => p.2)).sum
    let avgWordsPerSentence : ℚ :=
      if sentences.length > 0 then (wordCount : ℚ) / (sentences.length : ℚ) else 0
    let advancedWords := detectAdvancedVocabulary words
    { wordCount := wordCount
      uniqueWordCount := uniqueWordCount
      vocabularyRichness :=
        if wordCount = 0 then none
        else some (jsToFixed 1 ((uniqueWordCount : ℚ) / (wordCount : ℚ) * 100))
      sentenceCount := sentences.length
      avgWordsPerSentence := jsToFixed 1 avgWordsPerSentence
      avgWordLength :=
        if wordCount = 0 then none
        else some (jsToFixed 1 (((words.map String.length).sum : ℚ) / (wordCount : ℚ)))
      fillerWordCount := fillerCount
      fillerWords := fillerPairs
      fillerRatio :=
        if wordCount = 0 then none
        else some (jsToFixed 1 ((fillerCount : ℚ) / (wordCount : ℚ) * 100))
      advancedWords := advancedWords
      advancedWordCount := advancedWords.length
      grammarIndicators := analyzeGrammarIndicators text
      coherenceIndicators := analyzeCoherenceIndicators text
      rawText := text }

end Transcriber

namespace AIAnalyzer

open AudioProcessor Transcriber

/-- JavaScript `z || d` for an integer-valued number. -/
def jsIntOr (z : ℤ) (d : ℤ) : ℤ := if z = 0 then d else z

/-- The six skill keys of `this.weights` in ai-analyzer.js (lines 16-23). -/
inductive Skill where
  | pronunciation
  | fluency
  | vocabulary
  | grammar
  | coherence
  | time
deriving Repr, DecidableEq

/-- The fixed skill weights (ai-analyzer.js lines 16-23).  The source lookup
`this.weights[key] || 0.1` can never fall back to `0.1`, because `Skill`
enumerates exactly the keys of the weights object. -/
def weights : Skill → ℚ
  | .pronunciation => 22/100
  | .fluency => 22/100
  | .vocabulary => 18/100
  | .grammar => 15/100
  | .coherence => 13/100
  | .time => 10/100

/-- One band of `this.levelThresholds` (ai-analyzer.js lines 7-14). -/
structure LevelBand where
  name : String
  min : ℤ
  max : ℤ
  description : String
deriving Repr, DecidableEq

/-- `this.levelThresholds`, in object insertion order. -/
def levelThresholds : List LevelBand :=
  [⟨"A1", 0, 28, "Beginner - Basic words and phrases"⟩,
   ⟨"A2", 28, 42, "Elementary - Simple everyday expressions"⟩,
   ⟨"B1", 42, 58, "Intermediate - Familiar topics with effort"⟩,
   ⟨"B2", 58, 73, "Upper Intermediate - Fluent interaction"⟩,
   ⟨"C1", 73, 87, "Advanced - Complex topics with ease"⟩,
   ⟨"C2", 87, 100, "Mastery - Near-native proficiency"⟩]

/-- `determineLevel` (ai-analyzer.js lines 567-575): first band with
`min ≤ score < max` wins; if none matches, `'C2'`. -/
def determineLevel (overallScore : ℤ) : String :=
  match levelThresholds.find? (fun b => decide (b.min ≤ overallScore) && decide (overallScore < b.max)) with
  | some b => b.name
  | none => "C2"

/-- The lookup `this.levelThresholds[level].description`; every name
`determineLevel` can return is found. -/
def levelDescriptionOf (level : String) : String :=
  match levelThresholds.find? (fun b => b.name == level) with
  | some b => b.description
  | none => ""

/-- A per-skill analysis result.  The extra per-skill fields of the source
(`stats` of fluency, `wordCount`/`uniqueWords` of vocabulary, `limitation`
of grammar) are presentation-only and are not reproduced; no claim concerns
them. -/
structure SkillResult where
  score : ℤ
  feedback : List String
  issues : List String
  details : List String
  honestAssessment : String
deriving Repr, DecidableEq, Inhabited

/-- `getPronunciationAssessment` (called on the clamped, pre-round score). -/
def getPronunciationAssessment (score : ℚ) : String :=
  if score ≥ 80 then "Your pronunciation is excellent. Native speakers understand you easily."
  else if score ≥ 65 then "Good pronunciation with minor issues. Keep practicing difficult sounds."
  else if score ≥ 50 then "Pronunciation is developing. Practice with native audio regularly."
  else "Focus on basic pronunciation. Record yourself and compare with natives."

/-- `analyzePronunciation` (ai-analyzer.js lines 104-169): baseline 50 and
the clarity / pitch-variation / volume-consistency / word-length adjustments,
clamped to [0,100] and rounded. -/
def analyzePronunciation (features : Features) (transcription : Option TranscriptAnalysis) :
    SkillResult :=
  let clarity := jsIntOr features.clarity 50
  let b1 : ℚ × List String × List String × List String :=
    if clarity ≥ 80 then (25, ["Excellent speech clarity"], [],
      ["Your articulation is clear and easy to understand"])
    else if clarity ≥ 60 then (15, ["Good clarity overall"], [], [])
    else if clarity ≥ 40 then (5, [], ["Work on clearer articulation"], [])
    else (-10, [], ["Pronunciation needs significant improvement"], [])
  let pitchVar := jsNumOr features.pitchVariation 0
  let b2 : ℚ × List String × List String :=
    if 25/100 ≤ pitchVar ∧ pitchVar ≤ 55/100 then (15, ["Natural intonation"], [])
    else if pitchVar < 15/100 then (-12, [], ["Speech sounds monotone - add expression"])
    else if pitchVar > 7/10 then (-5, [], ["Intonation too varied"])
    else (8, [], [])
  let b3 : ℚ × List String × List String :=
    if features.volumeConsistency ≥ 6/10 then (10, ["Consistent volume"], [])
    else if features.volumeConsistency < 3/10 then (-5, [], ["Volume varies too much"])
    else (0, [], [])
  let b4 : ℚ × List String :=
    match transcription with
    | some t =>
      if t.wordCount > 0 ∧ jsOptOr t.avgWordLength 0 ≥ 45/10 then
        (5, ["Clear pronunciation of longer words detected"])
      else (0, [])
    | none => (0, [])
  let score := min 100 (max 0 (50 + b1.1 + b2.1 + b3.1 + b4.1))
  { score := jsRound score
    feedback := b1.2.1 ++ b2.2.1 ++ b3.2.1
    issues := b1.2.2.1 ++ b2.2.2 ++ b3.2.2
    details := b1.2.2.2 ++ b4.2
    honestAssessment := getPronunciationAssessment score }

/-- `getFluencyAssessment`. -/
def getFluencyAssessment (score : ℚ) : String :=
  if score ≥ 80 then "Excellent fluency! You speak naturally and smoothly."
  else if score ≥ 65 then "Good fluency with some hesitations. Practice speaking without pausing."
  else if score ≥ 50 then "Fluency needs work. Try shadowing exercises."
  else "Significant fluency issues. Focus on reducing pauses and filler words."

/-- `analyzeFluency` (ai-analyzer.js lines 180-258): baseline 50 and the
pause-ratio / speech-rate / filler-word adjustments, clamped and rounded. -/
def analyzeFluency (features : Features) (transcription : Option TranscriptAnalysis) :
    SkillResult :=
  let duration := jsNumOr features.duration 0
  let pauseCount := features.totalPauses
  let pauseDuration := jsNumOr features.pauseDuration 0
  let speechRate := jsIntOr features.speechRate 100
  let pauseRatio := if duration > 0 then pauseDuration / duration else 0
  let b1 : ℚ × List String × List String :=
    if pauseRatio < 15/100 ∧ 3 ≤ pauseCount ∧ pauseCount ≤ 12 then
      (28, ["Excellent fluency with natural pauses"], [])
    else if pauseRatio < 25/100 ∧ pauseCount ≤ 18 then (18, ["Good fluency overall"], [])
    else if pauseRatio < 35/100 then (8, [], ["Reduce hesitations between thoughts"])
    else (-10, [], ["Too many pauses - practice speaking more smoothly"])
  let b2 : ℚ × List String × List String :=
    if 110 ≤ speechRate ∧ speechRate ≤ 150 then (18, ["Natural speaking pace"], [])
    else if 90 ≤ speechRate ∧ speechRate < 110 then (10, [], ["Try speaking a bit faster"])
    else if 150 < speechRate ∧ speechRate ≤ 170 then (10, [], ["Slow down slightly"])
    else if speechRate < 90 then (-5, [], ["Speaking too slowly"])
    else (-10, [], ["Speaking too fast - listeners may struggle"])
  let b3 : ℚ × List String × List String × List String :=
    match transcription with
    | some t =>
      let fillerRatio := jsOptOr t.fillerRatio 0
      if fillerRatio > 8 then
        (-15, [],
         ["Too many filler words (" ++ toString t.fillerWordCount ++ " detected)"],
         ["Common fillers: " ++ String.intercalate ", " (t.fillerWords.map (fun p => p.1))])
      else if fillerRatio > 4 then
        (-8, [], ["Reduce filler words like \"um\", \"uh\", \"like\""], [])
      else if fillerRatio ≤ 2 then (5, ["Minimal filler words - great fluency!"], [], [])
      else (0, [], [], [])
    | none => (0, [], [], [])
  let score := min 100 (max 0 (50 + b1.1 + b2.1 + b3.1))
  { score := jsRound score
    feedback := b1.2.1 ++ b2.2.1 ++ b3.2.1
    issues := b1.2.2 ++ b2.2.2 ++ b3.2.2.1
    details := b3.2.2.2
    honestAssessment := getFluencyAssessment score }

/-- `getVocabularyAssessment`. -/
def getVocabularyAssessment (score : ℚ) : String :=
  if score ≥ 80 then "Excellent vocabulary range! You use varied and sophisticated words."
  else if score ≥ 65 then "Good vocabulary. Continue learning new words daily."
  else if score ≥ 50 then "Vocabulary is developing. Read more to expand your word bank."
  else "Limited vocabulary. Focus on learning common words and phrases first."

/-- `getTopicVocabulary` (ai-analyzer.js lines 808-821). -/
def getTopicVocabulary (topic : String) : String :=
  if topic = "introduction" then "personal, background, experience, interests, hobbies"
  else if topic = "education" then "academic, learning, skills, courses, degree, university"
  else if topic = "work" then "career, professional, responsibilities, achievements, colleagues"
  else if topic = "technology" then "digital, innovation, devices, software, artificial intelligence"
  else if topic = "environment" then "nature, sustainability, climate, ecosystem, pollution"
  else if topic = "health" then "wellness, fitness, nutrition, mental health, lifestyle"
  else if topic = "travel" then "culture, destinations, experiences, adventure, tourism"
  else if topic = "sports" then "competition, training, teamwork, fitness, championship"
  else if topic = "food" then "cuisine, cooking, ingredients, nutrition, restaurant"
  else "general vocabulary"

/-- `analyzeVocabulary` (ai-analyzer.js lines 269-349): baseline 45; with a
transcript, word-count / richness / advanced-vocabulary adjustments, else an
audio-based estimate; `+5` topic bonus unless the topic is empty or
`'custom'`; clamped and rounded. -/
def analyzeVocabulary (features : Features) (topic : String)
    (transcription : Option TranscriptAnalysis) : SkillResult :=
  let b1 : ℚ × List String × List String × List String :=
    match transcription with
    | some t =>
      if t.wordCount > 0 then
        let wc := t.wordCount
        let p1 : ℚ × List String × List String :=
          if wc ≥ 150 then
            (20, ["Good vocabulary demonstration (" ++ toString wc ++ " words)"], [])
          else if wc ≥ 80 then
            (12, ["Adequate word count (" ++ toString wc ++ " words)"], [])
          else (5, [], ["Speak more to demonstrate vocabulary range"])
        let richness := jsOptOr t.vocabularyRichness 0
        let p2 : ℚ × List String × List String × List String :=
          if richness ≥ 65 then
            (18, ["Excellent word variety"], [],
             [toString t.uniqueWordCount ++ " unique words used"])
          else if richness ≥ 45 then (12, ["Good word variety"], [], [])
          else (5, [], ["Use more varied vocabulary - avoid repetition"], [])
        let p3 : ℚ × List String × List String × List String :=
          if t.advancedWordCount ≥ 5 then
            (15, ["Strong use of advanced vocabulary"], [],
             ["Advanced words: " ++ String.intercalate ", " (t.advancedWords.take 5)])
          else if t.advancedWordCount ≥ 2 then (8, ["Some advanced vocabulary used"], [], [])
          else (0, [], ["Try using more sophisticated vocabulary"], [])
        (p1.1 + p2.1 + p3.1, p1.2.1 ++ p2.2.1 ++ p3.2.1,
         p1.2.2 ++ p2.2.2.1 ++ p3.2.2.1, p2.2.2.2 ++ p3.2.2.2)
      else audioEstimate
    | none => audioEstimate
  let b2 : ℚ × List String :=
    if topic ≠ "" ∧ topic ≠ "custom" then
      (5, ["Topic vocabulary expected: " ++ getTopicVocabulary topic])
    else (0, [])
  let score := min 100 (max 0 (45 + b1.1 + b2.1))
  { score := jsRound score
    feedback := b1.2.1
    issues := b1.2.2.1
    details := b1.2.2.2 ++ b2.2
    honestAssessment := getVocabularyAssessment score }
where
  /-- The audio-only fallback branch of `analyzeVocabulary`. -/
  audioEstimate : ℚ × List String × List String × List String :=
    let duration := jsNumOr features.duration 0
    let speechRate := jsIntOr features.speechRate 100
    let estimatedWords := jsRound ((duration - jsNumOr features.pauseDuration 0)
      * ((speechRate : ℚ) / 60))
    if estimatedWords ≥ 150 then (25, ["Good vocabulary range demonstrated"], [], [])
    else if estimatedWords ≥ 80 then (15, [], [], [])
    else (0, [], ["Speak longer to show vocabulary"], [])

end AIAnalyzer

namespace AIAnalyzer

open AudioProcessor Transcriber

/-- `getGrammarAssessment`. -/
def getGrammarAssessment (score : ℚ) : String :=
  if score ≥ 80 then "Grammar appears strong with complex structures used correctly."
  else if score ≥ 65 then "Good grammar control. Focus on advanced structures."
  else if score ≥ 50 then "Grammar is adequate. Review common error patterns."
  else "Grammar needs attention. Start with basic sentence structures."

/-- `analyzeGrammar` (ai-analyzer.js lines 360-428): baseline 50, the
confidence proxy, the four indicator bonuses, sentence complexity and the
clarity bonus, clamped and rounded. -/
def analyzeGrammar (features : Features) (transcription : Option TranscriptAnalysis) :
    SkillResult :=
  let b1 : ℚ × List String × List String :=
    if features.volumeConsistency ≥ 6/10 ∧ features.speechRate ≥ 100 then
      (15, ["Confident speech suggests good grammar control"], [])
    else if features.volumeConsistency ≥ 4/10 then (8, [], [])
    else (0, [], ["Hesitation may indicate grammar uncertainty"])
  let b2 : ℚ × List String × List String :=
    match transcription with
    | some t =>
      let gi := t.grammarIndicators
      let c1 : ℚ × List String :=
        if gi.hasComplexSentences then (12, ["Uses complex sentence structures"]) else (0, [])
      let c2 : ℚ × List String :=
        if gi.hasConditionals then (8, ["Good use of conditionals"]) else (0, [])
      let c3 : ℚ × List String :=
        if gi.hasPerfectTenses then (8, ["Uses perfect tenses correctly"]) else (0, [])
      let c4 : ℚ := if gi.hasPassiveVoice then 5 else 0
      let avgWords := jsNumOr t.avgWordsPerSentence 0
      let c5 : ℚ × List String × List String :=
        if avgWords ≥ 12 then (8, ["Good sentence complexity"], [])
        else if avgWords < 6 then (0, [], ["Try using longer, more complex sentences"])
        else (0, [], [])
      (c1.1 + c2.1 + c3.1 + c4 + c5.1, c1.2 ++ c2.2 ++ c3.2 ++ c5.2.1, c5.2.2)
    | none => (0, [], [])
  let passiveDetail : List String :=
    match transcription with
    | some t => if t.grammarIndicators.hasPassiveVoice then ["Passive voice structures detected"] else []
    | none => []
  let b3 : ℚ × List String :=
    if features.clarity ≥ 70 then (8, ["Clear speech structure"]) else (0, [])
  let score := min 100 (max 0 (50 + b1.1 + b2.1 + b3.1))
  { score := jsRound score
    feedback := b1.2.1 ++ b2.2.1 ++ b3.2
    issues := b1.2.2 ++ b2.2.2
    details := passiveDetail ++ ["Note: Full grammar accuracy requires human review"]
    honestAssessment := getGrammarAssessment score }

/-- `getCoherenceAssessment`. -/
def getCoherenceAssessment (score : ℚ) : String :=
  if score ≥ 80 then "Excellent organization! Ideas flow logically."
  else if score ≥ 65 then "Good coherence. Use more transition words."
  else if score ≥ 50 then "Organization needs work. Plan before speaking."
  else "Focus on clear structure: introduction, body, conclusion."

/-- `analyzeCoherence` (ai-analyzer.js lines 439-509): baseline 45, pause
score and pitch-variation bonuses, indicator bonuses with `+3` per
transition word, duration adjustment, clamped and rounded. -/
def analyzeCoherence (features : Features) (transcription : Option TranscriptAnalysis) :
    SkillResult :=
  let pauseScore := jsIntOr features.pauseScore 50
  let b1 : ℚ × List String × List String :=
    if pauseScore ≥ 85 then (20, ["Well-organized speech structure"], [])
    else if pauseScore ≥ 70 then (15, ["Good organization"], [])
    else (5, [], ["Organize ideas more clearly"])
  let pitchVar := jsNumOr features.pitchVariation 0
  let b2 : ℚ × List String :=
    if 2/10 ≤ pitchVar ∧ pitchVar ≤ 5/10 then (12, ["Good use of emphasis"]) else (0, [])
  let b3 : ℚ × List String × List String :=
    match transcription with
    | some t =>
      let ci := t.coherenceIndicators
      let c1 : ℚ × List String × List String :=
        if ci.hasIntroduction then (10, ["Clear introduction detected"], [])
        else (0, [], ["Start with a clear introduction"])
      let c2 : ℚ × List String × List String :=
        if ci.hasConclusion then (10, ["Good conclusion"], [])
        else (0, [], ["End with a clear conclusion"])
      let c3 : ℚ × List String × List String :=
        if ci.hasTransitionWords ∧ ci.transitionWordsUsed.length > 0 then
          ((ci.transitionWordsUsed.length : ℚ) * 3,
           ["Uses transition words: " ++ String.intercalate ", " (ci.transitionWordsUsed.take 3)],
           [])
        else (0, [], ["Use linking words: however, therefore, moreover"])
      (c1.1 + c2.1 + c3.1, c1.2.1 ++ c2.2.1 ++ c3.2.1, c1.2.2 ++ c2.2.2 ++ c3.2.2)
    | none => (0, [], [])
  let duration := jsNumOr features.duration 0
  let b4 : ℚ × List String :=
    if 60 ≤ duration ∧ duration ≤ 180 then (5, [])
    else if duration < 30 then (-10, ["Response too short for coherent development"])
    else (0, [])
  let score := min 100 (max 0 (45 + b1.1 + b2.1 + b3.1 + b4.1))
  { score := jsRound score
    feedback := b1.2.1 ++ b2.2 ++ b3.2.1
    issues := b1.2.2 ++ b3.2.2 ++ b4.2
    details := []
    honestAssessment := getCoherenceAssessment score }

/-- Result of `analyzeTimeManagement` (minutes kept as the `toFixed(1)`
rational). -/
structure TimeResult where
  score : ℤ
  feedback : String
  issues : List String
  duration : ℚ
  minutes : ℚ
deriving Repr, DecidableEq

/-- `analyzeTimeManagement` (ai-analyzer.js lines 520-555): banding over
minutes, distinct from the extractor's duration banding. -/
def analyzeTimeManagement (features : Features) : TimeResult :=
  let duration := jsNumOr features.duration 0
  let minutes := duration / 60
  if minutes < 1/2 then
    { score := 30, feedback := "Too short! Aim for 1-2 minutes minimum",
      issues := ["Expand your response with more details"],
      duration := duration, minutes := jsToFixed 1 minutes }
  else if minutes < 1 then
    { score := 55, feedback := "A bit short. Add more content",
      issues := ["Include examples and explanations"],
      duration := duration, minutes := jsToFixed 1 minutes }
  else if minutes ≤ 5/2 then
    { score := 95, feedback := "Perfect timing! Well-balanced response",
      issues := [], duration := duration, minutes := jsToFixed 1 minutes }
  else if minutes ≤ 7/2 then
    { score := 82, feedback := "Good length, slightly long",
      issues := ["Be more concise"], duration := duration, minutes := jsToFixed 1 minutes }
  else
    { score := 65, feedback := "Too long. Focus on key points",
      issues := ["Practice summarizing"], duration := duration, minutes := jsToFixed 1 minutes }

/-- `calculateOverallScore` (ai-analyzer.js lines 559-565): weighted sum over
the entries of the skill-score map, clamped to [0,100] and rounded. -/
def calculateOverallScore (scores : List (Skill × ℚ)) : ℤ :=
  let totalScore := (scores.map (fun p => jsNumOr p.2 0 * weights p.1)).sum
  jsRound (min 100 (max 0 totalScore))

/-- An entry of the `errors` array built by `identifyErrors` (the emoji
`icon` field is not reproduced). -/
structure ErrorEntry where
  type : String
  severity : String
  description : String
  examples : List String
deriving Repr, DecidableEq

/-- Severity rank used by the comparator of `identifyErrors`. -/
def sevRank (s : String) : ℤ := if s = "high" then 0 else if s = "medium" then 1 else 2

/-- Stable insertion of `x` into `l`: `x` goes before the first element `y`
with `le x y` false... placed after every earlier element it does not
strictly precede, matching a stable ascending sort. -/
def insertStable (le : α → α → Bool) (x : α) : List α → List α
  | [] => [x]
  | y :: ys => if le x y then x :: y :: ys else y :: insertStable le x ys

/-- Stable sort by the boolean relation `le`; models JavaScript
`Array.prototype.sort` with a consistent comparator (stable per ES2019). -/
def stableSortBy (le : α → α → Bool) : List α → List α
  | [] => []
  | x :: xs => insertStable le x (stableSortBy le xs)

/-- `identifyErrors` (ai-analyzer.js lines 579-607): every non-time skill
scoring below 58 becomes an entry (severity `high` below 40, `medium` below
50, else `low`), sorted stably by severity. -/
def identifyErrors (pronunciation fluency vocabulary grammar coherence : SkillResult) :
    List ErrorEntry :=
  let entries := [("Pronunciation", pronunciation), ("Fluency", fluency),
    ("Vocabulary", vocabulary), ("Grammar", grammar), ("Coherence", coherence)].filterMap
    (fun p =>
      if p.2.score < 58 then
        some { type := p.1
               severity := if p.2.score < 40 then "high"
                 else if p.2.score < 50 then "medium" else "low"
               description := p.2.honestAssessment
               examples := p.2.issues }
      else none)
  stableSortBy (fun a b => decide (sevRank a.severity ≤ sevRank b.severity)) entries

/-- `name.charAt(0).toUpperCase() + name.slice(1)`. -/
def capitalize (s : String) : String :=
  match s.data with
  | [] => ""
  | c :: rest => String.mk (c.toUpper :: rest)

/-- Result of `identifyStrengthsWeaknesses`. -/
structure StrengthsWeaknesses where
  strengths : List (String × ℤ)
  weaknesses : List (String × ℤ)
deriving Repr, DecidableEq

/-- The last `n` elements of a list (JavaScript `slice(-n)`). -/
def lastN (n : ℕ) (l : List α) : List α := l.drop (l.length - n)

/-- `identifyStrengthsWeaknesses` (ai-analyzer.js lines 609-621): sort the
five non-time skills descending by score; strengths are the top three with
score ≥ 65; weaknesses the last three with score < 58, worst first. -/
def identifyStrengthsWeaknesses (pronunciation fluency vocabulary grammar coherence : SkillResult) :
    StrengthsWeaknesses :=
  let skills := [("Pronunciation", pronunciation.score), ("Fluency", fluency.score),
    ("Vocabulary", vocabulary.score), ("Grammar", grammar.score),
    ("Coherence", coherence.score)]
  let sorted := stableSortBy (fun a b => decide (b.2 ≤ a.2)) skills
  { strengths := (sorted.filter (fun s => decide (65 ≤ s.2))).take 3
    weaknesses := (lastN 3 (sorted.filter (fun s => decide (s.2 < 58)))).reverse }

/-- A recommendation (the emoji title prefixes of the source are dropped). -/
structure Recommendation where
  priority : String
  category : String
  title : String
  description : String
  actions : List String
deriving Repr, DecidableEq

/-- The fixed per-skill templates of `getSkillRecommendation`
(ai-analyzer.js lines 682-741): title, description, actions. -/
def recTemplate (skill : String) : String × String × List String :=
  if skill = "pronunciation" then
    ("Improve Pronunciation", "Focus on clear articulation",
     ["Use pronunciation apps (ELSA, Speechling)",
      "Record yourself and compare with natives",
      "Practice difficult sounds daily",
      "Learn word stress patterns"])
  else if skill = "fluency" then
    ("Improve Fluency", "Speak more smoothly",
     ["Practice shadowing technique",
      "Read aloud for 10 minutes daily",
      "Reduce thinking time before speaking",
      "Learn common phrases and expressions"])
  else if skill = "vocabulary" then
    ("Expand Vocabulary", "Learn and use more words",
     ["Learn 5-10 new words daily",
      "Use spaced repetition apps",
      "Read extensively on various topics",
      "Use new words in sentences immediately"])
  else if skill = "grammar" then
    ("Strengthen Grammar", "Master sentence structures",
     ["Focus on one grammar rule per week",
      "Practice with grammar exercises",
      "Write sentences using new structures",
      "Get feedback from teachers or apps"])
  else if skill = "coherence" then
    ("Improve Organization", "Structure your ideas clearly",
     ["Use introduction-body-conclusion structure",
      "Learn transition words",
      "Plan your response before speaking",
      "Practice IELTS/TOEFL speaking tasks"])
  else ("", "", [])

/-- `getSkillRecommendation`: priority `high` below score 50, else `medium`;
category is the capitalised skill name. -/
def getSkillRecommendation (skill : String) (data : SkillResult) : Recommendation :=
  let t := recTemplate skill
  { priority := if data.score < 50 then "high" else "medium"
    category := capitalize skill
    title := t.1
    description := t.2.1
    actions := t.2.2 }

/-- The filler-word recommendation pushed when
`transcriptionAnalysis.fillerWordCount > 5`. -/
def fillerRecommendation (fillerWordCount : ℕ) : Recommendation :=
  { priority := "high"
    category := "Fluency"
    title := "Reduce Filler Words"
    description := "You used " ++ toString fillerWordCount ++ " filler words"
    actions := ["Practice pausing silently instead of saying \"um\"",
      "Record yourself and count filler words",
      "Slow down and think before speaking",
      "Use transition words instead of fillers"] }

/-- The foundation recommendation pushed for levels A1/A2. -/
def foundationRecommendation : Recommendation :=
  { priority := "high"
    category := "Foundation"
    title := "Build Strong Foundation"
    description := "Focus on basic skills first"
    actions := ["Learn the 1000 most common English words",
      "Practice basic sentence patterns daily",
      "Watch English videos with subtitles",
      "Speak English for 10 minutes every day"] }

/-- An entry of the array `generateRecommendations` sorts: skill name, its
score, and the full result. -/
structure SkillEntry where
  name : String
  score : ℤ
  data : SkillResult
deriving Repr, DecidableEq, Inhabited

/-- The five-entry array of `generateRecommendations`, sorted ascending by
score with the stable JS sort (`(a, b) => a.score - b.score`). -/
def sortedSkillEntries (pronunciation fluency vocabulary grammar coherence : SkillResult) :
    List SkillEntry :=
  stableSortBy (fun a b => decide (a.score ≤ b.score))
    [⟨"pronunciation", pronunciation.score, pronunciation⟩,
     ⟨"fluency", fluency.score, fluency⟩,
     ⟨"vocabulary", vocabulary.score, vocabulary⟩,
     ⟨"grammar", grammar.score, grammar⟩,
     ⟨"coherence", coherence.score, coherence⟩]

/-- `generateRecommendations` (ai-analyzer.js lines 623-680): a per-skill
recommendation for the weakest skill when its score is below 65, one for the
second weakest when its score is below 60, the filler-word recommendation
when a transcript has more than 5 filler words, the foundation
recommendation for levels A1/A2, capped at 4 (`slice(0, 4)`). -/
def generateRecommendations (pronunciation fluency vocabulary grammar coherence : SkillResult)
    (level : String) (transcriptionAnalysis : Option TranscriptAnalysis) :
    List Recommendation :=
  let skills := sortedSkillEntries pronunciation fluency vocabulary grammar coherence
  let weakest := skills.headD default
  let second := (skills.drop 1).headD default
  ((if weakest.score < 65 then [getSkillRecommendation weakest.name weakest.data] else [])
    ++ (if second.score < 60 then [getSkillRecommendation second.name second.data] else [])
    ++ (match transcriptionAnalysis with
        | some t =>
          if t.fillerWordCount > 5 then [fillerRecommendation t.fillerWordCount] else []
        | none => [])
    ++ (if level = "A1" ∨ level = "A2" then [foundationRecommendation] else [])).take 4

/-- The data that `generateDetailedFeedback` (ai-analyzer.js lines 743-806)
renders.  The HTML serialisation is presentation-only and is not reproduced;
the structure keeps exactly the inputs the markup interpolates. -/
structure DetailedFeedback where
  level : String
  levelDescription : String
  overallScore : ℤ
  duration : ℚ
  transcription : Option TranscriptAnalysis
  pronunciation : SkillResult
  fluency : SkillResult
  vocabulary : SkillResult
  grammar : SkillResult
  coherence : SkillResult
  timeManagement : TimeResult
deriving Repr, DecidableEq

/-- The map of six scores of the returned assessment (object literal order:
pronunciation, vocabulary, fluency, grammar, time, coherence). -/
structure ScoresMap where
  pronunciation : ℤ
  vocabulary : ℤ
  fluency : ℤ
  grammar : ℤ
  time : ℤ
  coherence : ℤ
deriving Repr, DecidableEq

/-- The `Assessment` object returned by `analyzeFullSpeaking`
(ai-analyzer.js lines 73-95). -/
structure Assessment where
  level : String
  levelDescription : String
  overallScore : ℤ
  scores : ScoresMap
  detailedFeedback : DetailedFeedback
  errors : List ErrorEntry
  recommendations : List Recommendation
  strengths : List (String × ℤ)
  weaknesses : List (String × ℤ)
  topic : String
  duration : ℚ
  transcription : Option TranscriptAnalysis
  timestamp : String
  analysisVersion : String
deriving Repr, DecidableEq

/-- `analyzeFullSpeaking` (ai-analyzer.js lines 28-100).  The source fills
`timestamp` with `new Date().toISOString()` — the only input that is not a
function of the arguments — so the model takes it as the extra argument
`timestamp`. -/
def analyzeFullSpeaking (audioFeatures : Features) (topic : String)
    (transcriptionAnalysis : Option TranscriptAnalysis) (timestamp : String) : Assessment :=
  let pronunciation := analyzePronunciation audioFeatures transcriptionAnalysis
  let fluency := analyzeFluency audioFeatures transcriptionAnalysis
  let vocabulary := analyzeVocabulary audioFeatures topic transcriptionAnalysis
  let grammar := analyzeGrammar audioFeatures transcriptionAnalysis
  let coherence := analyzeCoherence audioFeatures transcriptionAnalysis
  let timeManagement := analyzeTimeManagement audioFeatures
  let overallScore := calculateOverallScore
    [(.pronunciation, (pronunciation.score : ℚ)), (.fluency, (fluency.score : ℚ)),
     (.vocabulary, (vocabulary.score : ℚ)), (.grammar, (grammar.score : ℚ)),
     (.coherence, (coherence.score : ℚ)), (.time, (timeManagement.score : ℚ))]
  let level := determineLevel overallScore
  let errors := identifyErrors pronunciation fluency vocabulary grammar coherence
  let recommendations := generateRecommendations pronunciation fluency vocabulary grammar
    coherence level transcriptionAnalysis
  let detailedFeedback : DetailedFeedback :=
    { level := level, levelDescription := levelDescriptionOf level,
      overallScore := overallScore, duration := audioFeatures.duration,
      transcription := transcriptionAnalysis,
      pronunciation := pronunciation, fluency := fluency, vocabulary := vocabulary,
      grammar := grammar, coherence := coherence, timeManagement := timeManagement }
  let analysis := identifyStrengthsWeaknesses pronunciation fluency vocabulary grammar coherence
  let scoresMap : ScoresMap :=
    { pronunciation := pronunciation.score, vocabulary := vocabulary.score,
      fluency := fluency.score, grammar := grammar.score,
      time := timeManagement.score, coherence := coherence.score }
  { level := level
    levelDescription := levelDescriptionOf level
    overallScore := overallScore
    scores := scoresMap
    detailedFeedback := detailedFeedback
    errors := errors
    recommendations := recommendations
    strengths := analysis.strengths
    weaknesses := analysis.weaknesses
    topic := topic
    duration := audioFeatures.duration
    transcription := transcriptionAnalysis
    timestamp := timestamp
    analysisVersion := "4.0" }

end AIAnalyzer

section Lemmas

/-- A value of the form `Math.round(Math.min(100, Math.max(0, x)))` is an
integer in `[0, 100]`. -/
theorem jsRound_clamp_bounds (x : ℚ) :
    0 ≤ jsRound (min 100 (max 0 x)) ∧ jsRound (min 100 (max 0 x)) ≤ 100 := by
  unfold jsRound
  constructor
  · have h : (0 : ℚ) ≤ min 100 (max 0 x) := le_min (by norm_num) (le_max_left _ _)
    exact Int.le_floor.mpr (by push_cast; linarith)
  · have h : min 100 (max 0 x) ≤ 100 := min_le_left _ _
    exact Int.floor_le_iff.mpr (by push_cast; linarith)

/-- `jsNumOr q 0` is the identity: the source idiom `x || 0` does not change
a number. -/
@[simp] theorem jsNumOr_zero (q : ℚ) : jsNumOr q 0 = q := by
  unfold jsNumOr; split <;> simp_all

/-- Rounding to two decimals increases a value by at most `1/200`. -/
theorem jsToFixed_two_le (q : ℚ) : jsToFixed 2 q ≤ q + 1/200 := by
  unfold jsToFixed
  have h : ((⌊q * (10:ℚ)^2 + 1/2⌋ : ℤ) : ℚ) ≤ q * (10:ℚ)^2 + 1/2 := Int.floor_le _
  rw [div_le_iff₀ (by norm_num : (0:ℚ) < (10:ℚ)^2)]
  nlinarith [h]

end Lemmas

namespace AudioProcessor

/-- The loop of `detectPauses` counts exactly the entries of `pauseRuns` of
length at least `m`, and accumulates exactly their total length divided by
the sample rate. -/
theorem detectRaw_eq_runs (m : ℕ) (sr : ℚ) (xs : List ℚ) : ∀ cur : ℕ,
    detectRaw m sr xs cur =
      ((pauseRuns xs cur).countP (fun k => decide (m ≤ k)),
       ((((pauseRuns xs cur).filter (fun k => decide (m ≤ k))).sum : ℕ) : ℚ) / sr) := by
  induction xs with
  | nil =>
    intro cur
    by_cases h : m ≤ cur
    · simp [detectRaw, pauseRuns, h, List.countP_cons, List.filter_cons]
    · simp [detectRaw, pauseRuns, h, List.countP_cons, List.filter_cons]
  | cons x xs ih =>
    intro cur
    by_cases hx : |x| < 1/100
    · simp only [detectRaw, pauseRuns, if_pos hx]
      exact ih (cur + 1)
    · simp only [detectRaw, pauseRuns, if_neg hx, ih 0]
      by_cases h : m ≤ cur
      · rw [if_pos h, Prod.ext_iff]
        constructor
        · simp [List.countP_cons, h]
        · have hf : (cur :: pauseRuns xs 0).filter (fun k => decide (m ≤ k))
              = cur :: (pauseRuns xs 0).filter (fun k => decide (m ≤ k)) := by
            simp [List.filter_cons, h]
          rw [hf, List.sum_cons]
          push_cast
          rw [add_div]
      · simp [if_neg h, List.countP_cons, List.filter_cons, h]

/-- The entries of `pauseRuns` sum to at most the pending count plus the
number of samples. -/
theorem pauseRuns_sum_le (xs : List ℚ) : ∀ cur : ℕ,
    (pauseRuns xs cur).sum ≤ cur + xs.length := by
  induction xs with
  | nil => intro cur; simp [pauseRuns]
  | cons x xs ih =>
    intro cur
    by_cases hx : |x| < 1/100
    · simp only [pauseRuns, if_pos hx, List.length_cons]
      have := ih (cur + 1)
      omega
    · simp only [pauseRuns, if_neg hx, List.sum_cons, List.length_cons]
      have := ih 0
      omega

/-- The sum of a filtered list of naturals is at most the sum of the list. -/
theorem sum_filter_le_sum (p : ℕ → Bool) (l : List ℕ) : (l.filter p).sum ≤ l.sum := by
  induction l with
  | nil => simp
  | cons a l ih =>
    simp only [List.filter_cons, List.sum_cons]
    split
    · simp only [List.sum_cons]; omega
    · omega

end AudioProcessor

namespace AIAnalyzer

/-- The level mapping as the specification words it: six half-open bands
`A1 [0,28) ... C2 [87,100)` with `C2` for a score of 100. -/
def specLevel (s : ℤ) : String :=
  if s < 28 then "A1"
  else if s < 42 then "A2"
  else if s < 58 then "B1"
  else if s < 73 then "B2"
  else if s < 87 then "C1"
  else "C2"

/-- Bounded check of the level bands over all integer scores in `[0, 100]`. -/
theorem determineLevel_spec_aux : ∀ n : ℕ, n ≤ 100 →
    determineLevel (n : ℤ) = specLevel (n : ℤ) ∧
    levelThresholds.countP (fun b => decide (b.min ≤ (n : ℤ)) && decide ((n : ℤ) < b.max)) =
      (if (n : ℤ) = 100 then 0 else 1) := by decide

end AIAnalyzer

/-- C3: level determination is total and non-overlapping — every integer
overall score in `[0,100]` maps via `determineLevel` to the level of the
claimed half-open bands, exactly one band matches below 100 and none at 100
(where the fallback yields C2); in particular 58 gives B2 and 100 gives C2. -/
theorem C3_determineLevel_total_bands (s : ℤ) (h0 : 0 ≤ s) (h1 : s ≤ 100) :
    AIAnalyzer.determineLevel s = AIAnalyzer.specLevel s ∧
    AIAnalyzer.levelThresholds.countP
      (fun b => decide (b.min ≤ s) && decide (s < b.max)) = (if s = 100 then 0 else 1) ∧
    AIAnalyzer.determineLevel 58 = "B2" ∧ AIAnalyzer.determineLevel 100 = "C2" := by
  have hs : ((s.toNat : ℤ)) = s := Int.toNat_of_nonneg h0
  have hn : s.toNat ≤ 100 := by omega
  have h := AIAnalyzer.determineLevel_spec_aux s.toNat hn
  rw [hs] at h
  exact ⟨h.1, h.2, by decide, by decide⟩

/-- Witness for C3 at the concrete score 58. -/
theorem C3_witness :
    AIAnalyzer.determineLevel 58 = AIAnalyzer.specLevel 58 ∧
    AIAnalyzer.levelThresholds.countP
      (fun b => decide (b.min ≤ (58 : ℤ)) && decide ((58 : ℤ) < b.max)) =
      (if (58 : ℤ) = 100 then 0 else 1) ∧
    AIAnalyzer.determineLevel 58 = "B2" ∧ AIAnalyzer.determineLevel 100 = "C2" :=
  C3_determineLevel_total_bands 58 (by norm_num) (by norm_num)

/-- C4: the overall score is `round(clamp(Σ skill × weight, 0, 100))` with
the fixed weights `.22/.22/.18/.15/.13/.10`, and the weights sum to 1. -/
theorem C4_calculateOverallScore_weighted (p f v g c t : ℚ) :
    AIAnalyzer.calculateOverallScore
      [(.pronunciation, p), (.fluency, f), (.vocabulary, v),
       (.grammar, g), (.coherence, c), (.time, t)] =
      jsRound (min 100 (max 0
        (p * (22/100) + f * (22/100) + v * (18/100) + g * (15/100)
          + c * (13/100) + t * (10/100)))) ∧
    AIAnalyzer.weights .pronunciation + AIAnalyzer.weights .fluency
      + AIAnalyzer.weights .vocabulary + AIAnalyzer.weights .grammar
      + AIAnalyzer.weights .coherence + AIAnalyzer.weights .time = 1 := by
  constructor
  · simp only [AIAnalyzer.calculateOverallScore, List.map_cons, List.map_nil, List.sum_cons,
      List.sum_nil, jsNumOr_zero, AIAnalyzer.weights]
    ring_nf
  · norm_num [AIAnalyzer.weights]

/-- Lists built by at most four conditional single pushes have length at
most four. -/
theorem fourAppend_length_le {α : Type} (a b c d : List α)
    (ha : a.length ≤ 1) (hb : b.length ≤ 1) (hc : c.length ≤ 1) (hd : d.length ≤ 1) :
    (a ++ b ++ c ++ d).length ≤ 4 := by
  simp only [List.length_append]
  omega

/-- A conditional single push has length at most one. -/
theorem ifSingleton_length_le {α : Type} (c : Prop) [Decidable c] (x : α) :
    (if c then [x] else []).length ≤ 1 := by
  split <;> simp

/-- C1 counterexample: with all five skills scoring 70 (weakest score 70,
not below 65), level B2 and no transcript, `generateRecommendations` emits
no recommendation at all — in particular none for the weakest skill,
contradicting the claim that the weakest skill always receives one. -/
theorem C1_counterexample :
    AIAnalyzer.generateRecommendations ⟨70, [], [], [], ""⟩ ⟨70, [], [], [], ""⟩
      ⟨70, [], [], [], ""⟩ ⟨70, [], [], [], ""⟩ ⟨70, [], [], [], ""⟩ "B2" none = [] ∧
    ((AIAnalyzer.sortedSkillEntries ⟨70, [], [], [], ""⟩ ⟨70, [], [], [], ""⟩
      ⟨70, [], [], [], ""⟩ ⟨70, [], [], [], ""⟩ ⟨70, [], [], [], ""⟩).headD default).score
      = 70 := by decide

/-- C1 amended: the recommendation list never exceeds four entries, and it
consists exactly of — in this priority order — a per-skill recommendation
for the weakest skill when its score is below 65 (not unconditionally), one
for the second weakest when its score is below 60, the filler-word
recommendation when the transcript has more than 5 filler words, and the
foundation recommendation when the level is A1 or A2 (the cap of four never
truncates). -/
theorem C1_generateRecommendations_spec
    (pron flu voc gra coh : AIAnalyzer.SkillResult) (level : String)
    (ta : Option Transcriber.TranscriptAnalysis) :
    (AIAnalyzer.generateRecommendations pron flu voc gra coh level ta).length ≤ 4 ∧
    AIAnalyzer.generateRecommendations pron flu voc gra coh level ta =
      (if ((AIAnalyzer.sortedSkillEntries pron flu voc gra coh).headD default).score < 65 then
        [AIAnalyzer.getSkillRecommendation
          ((AIAnalyzer.sortedSkillEntries pron flu voc gra coh).headD default).name
          ((AIAnalyzer.sortedSkillEntries pron flu voc gra coh).headD default).data]
      else [])
      ++ (if (((AIAnalyzer.sortedSkillEntries pron flu voc gra coh).drop 1).headD default).score < 60 then
        [AIAnalyzer.getSkillRecommendation
          (((AIAnalyzer.sortedSkillEntries pron flu voc gra coh).drop 1).headD default).name
          (((AIAnalyzer.sortedSkillEntries pron flu voc gra coh).drop 1).headD default).data]
      else [])
      ++ (match ta with
          | some t =>
            if t.fillerWordCount > 5 then [AIAnalyzer.fillerRecommendation t.fillerWordCount]
            else []
          | none => [])
      ++ (if level = "A1" ∨ level = "A2" then [AIAnalyzer.foundationRecommendation] else []) := by
  have hmatch : (match ta with
      | some t =>
        if t.fillerWordCount > 5 then [AIAnalyzer.fillerRecommendation t.fillerWordCount]
        else []
      | none => ([] : List AIAnalyzer.Recommendation)).length ≤ 1 := by
    rcases ta with _ | t
    · simp
    · exact ifSingleton_length_le _ _
  have h4 := fourAppend_length_le _ _ _ _
    (ifSingleton_length_le
      (((AIAnalyzer.sortedSkillEntries pron flu voc gra coh).headD default).score < 65)
      (AIAnalyzer.getSkillRecommendation
        ((AIAnalyzer.sortedSkillEntries pron flu voc gra coh).headD default).name
        ((AIAnalyzer.sortedSkillEntries pron flu voc gra coh).headD default).data))
    (ifSingleton_length_le
      ((((AIAnalyzer.sortedSkillEntries pron flu voc gra coh).drop 1).headD default).score < 60)
      (AIAnalyzer.getSkillRecommendation
        (((AIAnalyzer.sortedSkillEntries pron flu voc gra coh).drop 1).headD default).name
        (((AIAnalyzer.sortedSkillEntries pron flu voc gra coh).drop 1).headD default).data))
    hmatch
    (ifSingleton_length_le (level = "A1" ∨ level = "A2") AIAnalyzer.foundationRecommendation)
  constructor
  · show (List.take 4 _).length ≤ 4
    rw [List.length_take]
    exact min_le_left _ _
  · exact List.take_of_length_le h4

/-- C2 counterexample: feature extraction on a present but empty sample
buffer (sample rate 44100) succeeds and returns a `FeatureSet`; it does not
fail, while the claim requires an `InvalidAudioError` for an empty buffer. -/
theorem C2_counterexample :
    ∃ fs, AudioProcessor.extractFeatures (fun _ => 0) (some ⟨[], 44100⟩) = .ok fs :=
  ⟨_, rfl⟩

/-- C2 amended: feature extraction raises an error — `'No audio buffer
available'` — exactly when no decoded audio buffer is present; it performs
no empty-buffer or sample-rate validation (there is no `InvalidAudioError`
in the code).  For every present buffer on which the source terminates —
the buffer is empty, or the pitch window size `⌊0.05 × sampleRate⌋` is
nonzero (sample rate negative or at least 20) — extraction succeeds with a
complete `FeatureSet`; in particular an empty buffer succeeds rather than
failing.  For a nonempty buffer with sample rate in `[0, 20)` the source's
pitch loop never terminates, producing neither a result nor an error, so
nothing is asserted there. -/
theorem C2_extractFeatures_failure_spec :
    (∀ (buffer : AudioProcessor.AudioBuffer) (sqrtf : ℚ → ℚ),
      buffer.samples = [] ∨ ⌊buffer.sampleRate * (5/100)⌋ ≠ 0 →
      ∃ fs, AudioProcessor.extractFeatures sqrtf (some buffer) = .ok fs) ∧
    (∀ sqrtf : ℚ → ℚ,
      AudioProcessor.extractFeatures sqrtf none = .error "No audio buffer available") :=
  ⟨fun _ _ _ => ⟨_, rfl⟩, fun _ => rfl⟩

/-- Witness for C2 at a concrete present buffer (one sample at 44100 Hz,
where `⌊0.05 × 44100⌋ = 2205 ≠ 0`) and at the absent buffer. -/
theorem C2_witness :
    (∃ fs, AudioProcessor.extractFeatures (fun _ => 0) (some ⟨[1/2], 44100⟩) = .ok fs) ∧
    AudioProcessor.extractFeatures (fun _ => 0) none = .error "No audio buffer available" :=
  ⟨C2_extractFeatures_failure_spec.1 ⟨[1/2], 44100⟩ (fun _ => 0) (Or.inr (by norm_num)),
   C2_extractFeatures_failure_spec.2 (fun _ => 0)⟩

/-- C5: at the failing input `" "` (a nonempty, all-whitespace transcript)
the analysis has `wordCount = 0` and all counts zero with both indicator
scores 50, but the vocabulary-richness and filler ratios are the `NaN` of
the `0/0` division (`none`), not 0 as the claim — and the code's own
empty-input guard — require. -/
theorem C5_whitespace_transcript_nan :
    (Transcriber.analyzeTranscript " ").wordCount = 0 ∧
    (Transcriber.analyzeTranscript " ").vocabularyRichness = none ∧
    (Transcriber.analyzeTranscript " ").fillerRatio = none ∧
    (Transcriber.analyzeTranscript " ").uniqueWordCount = 0 ∧
    (Transcriber.analyzeTranscript " ").sentenceCount = 0 ∧
    (Transcriber.analyzeTranscript " ").fillerWordCount = 0 ∧
    (Transcriber.analyzeTranscript " ").advancedWordCount = 0 ∧
    (Transcriber.analyzeTranscript " ").grammarIndicators.score = 50 ∧
    (Transcriber.analyzeTranscript " ").coherenceIndicators.score = 50 ∧
    Transcriber.analyzeTranscript "" = Transcriber.getEmptyAnalysis := by decide

/-- C7 counterexample: at sample rate 9 the threshold is
`⌊0.3 × 9⌋ = 2` samples, so the buffer of two silent samples holds a single
silent run lasting `2/9 < 0.3` seconds — less than 300ms — yet it is
counted as a pause (`count = 1`), refuting the 300ms reading. -/
theorem C7_counterexample :
    (AudioProcessor.detectPauses [0, 0] 9).count = 1 ∧
    ∀ k ∈ AudioProcessor.pauseRuns ([0, 0] : List ℚ) 0, (k : ℚ) / 9 < 3/10 := by
  have hm : ((⌊(3/10 : ℚ) * 9⌋).toNat) = 2 := by
    rw [show ⌊(3/10 : ℚ) * 9⌋ = 2 by norm_num]; rfl
  constructor
  · norm_num [AudioProcessor.detectPauses, hm, AudioProcessor.detectRaw]
  · norm_num [AudioProcessor.pauseRuns]

/-- C7 amended: the pause count is exactly the number of maximal
below-threshold (`|x| < 0.01`) runs spanning at least
`⌊0.3 × sampleRate⌋` samples — at least 300ms only when `0.3 × sampleRate`
is an integer — the trailing in-progress run included; the total pause
duration is the summed length of those runs over the sample rate, rounded
to two decimals; and the score banding is `<3 → 60`, `[3,15] → 95`,
`(15,25] → 80`, `>25 → 65`. -/
theorem C7_detectPauses_spec (samples : List ℚ) (sr : ℚ) :
    (AudioProcessor.detectPauses samples sr).count =
      (AudioProcessor.pauseRuns samples 0).countP
        (fun k => decide ((⌊(3/10 : ℚ) * sr⌋).toNat ≤ k)) ∧
    (AudioProcessor.detectPauses samples sr).totalDuration =
      jsToFixed 2 (((((AudioProcessor.pauseRuns samples 0).filter
        (fun k => decide ((⌊(3/10 : ℚ) * sr⌋).toNat ≤ k))).sum : ℕ) : ℚ) / sr) ∧
    ((AudioProcessor.detectPauses samples sr).count < 3 →
      (AudioProcessor.detectPauses samples sr).score = 60) ∧
    (3 ≤ (AudioProcessor.detectPauses samples sr).count ∧
        (AudioProcessor.detectPauses samples sr).count ≤ 15 →
      (AudioProcessor.detectPauses samples sr).score = 95) ∧
    (15 < (AudioProcessor.detectPauses samples sr).count ∧
        (AudioProcessor.detectPauses samples sr).count ≤ 25 →
      (AudioProcessor.detectPauses samples sr).score = 80) ∧
    (25 < (AudioProcessor.detectPauses samples sr).count →
      (AudioProcessor.detectPauses samples sr).score = 65) := by
  have h := AudioProcessor.detectRaw_eq_runs ((⌊(3/10 : ℚ) * sr⌋).toNat) sr samples 0
  refine ⟨?_, ?_, ?_, ?_, ?_, ?_⟩
  · simp only [AudioProcessor.detectPauses, h]
  · simp only [AudioProcessor.detectPauses, h]
  all_goals
    intro hc
    simp only [AudioProcessor.detectPauses, h] at hc ⊢
    split_ifs <;> omega

/-- Score bounds of the extractor's duration banding. -/
theorem analyzeDuration_score_bounds (d : ℚ) :
    0 ≤ (AudioProcessor.analyzeDuration d).score ∧
    (AudioProcessor.analyzeDuration d).score ≤ 100 := by
  simp only [AudioProcessor.analyzeDuration]
  split_ifs <;> norm_num

/-- Score bounds of the pause banding. -/
theorem detectPauses_score_bounds (samples : List ℚ) (sr : ℚ) :
    0 ≤ (AudioProcessor.detectPauses samples sr).score ∧
    (AudioProcessor.detectPauses samples sr).score ≤ 100 := by
  have h := AudioProcessor.detectRaw_eq_runs ((⌊(3/10 : ℚ) * sr⌋).toNat) sr samples 0
  simp only [AudioProcessor.detectPauses, h]
  split_ifs <;> norm_num

/-- Score bounds of the speech-rate banding. -/
theorem estimateSpeechRate_score_bounds (d : ℚ) (pa : AudioProcessor.PauseAnalysis) :
    0 ≤ (AudioProcessor.estimateSpeechRate d pa).score ∧
    (AudioProcessor.estimateSpeechRate d pa).score ≤ 100 := by
  simp only [AudioProcessor.estimateSpeechRate]
  split_ifs <;> norm_num

/-- Score bounds of the pitch banding. -/
theorem analyzePitch_score_bounds (sqrtf : ℚ → ℚ) (samples : List ℚ) (sr : ℚ) :
    0 ≤ (AudioProcessor.analyzePitch sqrtf samples sr).score ∧
    (AudioProcessor.analyzePitch sqrtf samples sr).score ≤ 100 := by
  simp only [AudioProcessor.analyzePitch]
  split_ifs <;> norm_num

/-- C6 counterexample: three silent samples at sample rate 8 give a buffer
duration of `3/8 = 0.375` seconds covered by one pause; the stored pause
duration is rounded to two decimals, `0.38`, which exceeds the duration —
refuting `pauseDurationSeconds ≤ durationSeconds`. -/
theorem C6_counterexample :
    (AudioProcessor.buildFeatures (fun _ => 0) [0, 0, 0] 8).duration = 3/8 ∧
    (AudioProcessor.buildFeatures (fun _ => 0) [0, 0, 0] 8).pauseDuration = 19/50 ∧
    (AudioProcessor.buildFeatures (fun _ => 0) [0, 0, 0] 8).duration <
      (AudioProcessor.buildFeatures (fun _ => 0) [0, 0, 0] 8).pauseDuration := by
  have hm : ((⌊(3/10 : ℚ) * 8⌋).toNat) = 2 := by
    rw [show ⌊(3/10 : ℚ) * 8⌋ = 2 by norm_num]; rfl
  refine ⟨?_, ?_, ?_⟩ <;>
    norm_num [AudioProcessor.buildFeatures, AudioProcessor.detectPauses, hm,
      AudioProcessor.detectRaw, jsToFixed]

/-- C6 amended: for every buffer and positive sample rate, the unrounded
total pause duration never exceeds the duration, and the stored
`pauseDurationSeconds` — rounded to two decimals — exceeds the duration by
at most `1/200 = 0.005`; and every `*Score` field of the `FeatureSet`
(durationScore, pauseScore, speechRateScore, pitchScore, clarity) is an
integer in `[0, 100]`. -/
theorem C6_featureSet_invariants (samples : List ℚ) (sr : ℚ) (sqrtf : ℚ → ℚ) (hsr : 0 < sr) :
    (AudioProcessor.detectRaw ((⌊(3/10 : ℚ) * sr⌋).toNat) sr samples 0).2
      ≤ (AudioProcessor.buildFeatures sqrtf samples sr).duration ∧
    (AudioProcessor.buildFeatures sqrtf samples sr).pauseDuration
      ≤ (AudioProcessor.buildFeatures sqrtf samples sr).duration + 1/200 ∧
    (0 ≤ (AudioProcessor.buildFeatures sqrtf samples sr).durationScore ∧
      (AudioProcessor.buildFeatures sqrtf samples sr).durationScore ≤ 100) ∧
    (0 ≤ (AudioProcessor.buildFeatures sqrtf samples sr).pauseScore ∧
      (AudioProcessor.buildFeatures sqrtf samples sr).pauseScore ≤ 100) ∧
    (0 ≤ (AudioProcessor.buildFeatures sqrtf samples sr).speechRateScore ∧
      (AudioProcessor.buildFeatures sqrtf samples sr).speechRateScore ≤ 100) ∧
    (0 ≤ (AudioProcessor.buildFeatures sqrtf samples sr).pitchScore ∧
      (AudioProcessor.buildFeatures sqrtf samples sr).pitchScore ≤ 100) ∧
    (0 ≤ (AudioProcessor.buildFeatures sqrtf samples sr).clarity ∧
      (AudioProcessor.buildFeatures sqrtf samples sr).clarity ≤ 100) := by
  have hchar := AudioProcessor.detectRaw_eq_runs ((⌊(3/10 : ℚ) * sr⌋).toNat) sr samples 0
  have hsum : (((AudioProcessor.pauseRuns samples 0).filter
      (fun k => decide ((⌊(3/10 : ℚ) * sr⌋).toNat ≤ k))).sum : ℕ) ≤ samples.length := by
    have h1 := AudioProcessor.sum_filter_le_sum
      (fun k => decide ((⌊(3/10 : ℚ) * sr⌋).toNat ≤ k)) (AudioProcessor.pauseRuns samples 0)
    have h2 := AudioProcessor.pauseRuns_sum_le samples 0
    omega
  have h2 : (AudioProcessor.detectRaw ((⌊(3/10 : ℚ) * sr⌋).toNat) sr samples 0).2
      = ((((AudioProcessor.pauseRuns samples 0).filter
        (fun k => decide ((⌊(3/10 : ℚ) * sr⌋).toNat ≤ k))).sum : ℕ) : ℚ) / sr := by
    rw [hchar]
  have hraw : (AudioProcessor.detectRaw ((⌊(3/10 : ℚ) * sr⌋).toNat) sr samples 0).2
      ≤ (samples.length : ℚ) / sr := by
    rw [h2]
    exact (div_le_div_iff_of_pos_right hsr).mpr (by exact_mod_cast hsum)
  refine ⟨hraw, ?_, analyzeDuration_score_bounds _, detectPauses_score_bounds _ _,
    estimateSpeechRate_score_bounds _ _, analyzePitch_score_bounds _ _ _,
    jsRound_clamp_bounds _⟩
  show jsToFixed 2 (AudioProcessor.detectRaw ((⌊(3/10 : ℚ) * sr⌋).toNat) sr samples 0).2
    ≤ (samples.length : ℚ) / sr + 1/200
  calc jsToFixed 2 (AudioProcessor.detectRaw ((⌊(3/10 : ℚ) * sr⌋).toNat) sr samples 0).2
      ≤ (AudioProcessor.detectRaw ((⌊(3/10 : ℚ) * sr⌋).toNat) sr samples 0).2 + 1/200 :=
        jsToFixed_two_le _
    _ ≤ (samples.length : ℚ) / sr + 1/200 := by linarith [hraw]

/-- Witness for C6 at a concrete buffer: one loud sample at rate 1000. -/
theorem C6_witness :
    (AudioProcessor.detectRaw ((⌊(3/10 : ℚ) * 1000⌋).toNat) 1000 [1/2] 0).2
      ≤ (AudioProcessor.buildFeatures (fun _ => 0) [1/2] 1000).duration ∧
    (AudioProcessor.buildFeatures (fun _ => 0) [1/2] 1000).pauseDuration
      ≤ (AudioProcessor.buildFeatures (fun _ => 0) [1/2] 1000).duration + 1/200 ∧
    (0 ≤ (AudioProcessor.buildFeatures (fun _ => 0) [1/2] 1000).durationScore ∧
      (AudioProcessor.buildFeatures (fun _ => 0) [1/2] 1000).durationScore ≤ 100) ∧
    (0 ≤ (AudioProcessor.buildFeatures (fun _ => 0) [1/2] 1000).pauseScore ∧
      (AudioProcessor.buildFeatures (fun _ => 0) [1/2] 1000).pauseScore ≤ 100) ∧
    (0 ≤ (AudioProcessor.buildFeatures (fun _ => 0) [1/2] 1000).speechRateScore ∧
      (AudioProcessor.buildFeatures (fun _ => 0) [1/2] 1000).speechRateScore ≤ 100) ∧
    (0 ≤ (AudioProcessor.buildFeatures (fun _ => 0) [1/2] 1000).pitchScore ∧
      (AudioProcessor.buildFeatures (fun _ => 0) [1/2] 1000).pitchScore ≤ 100) ∧
    (0 ≤ (AudioProcessor.buildFeatures (fun _ => 0) [1/2] 1000).clarity ∧
      (AudioProcessor.buildFeatures (fun _ => 0) [1/2] 1000).clarity ≤ 100) :=
  C6_featureSet_invariants [1/2] 1000 (fun _ => 0) (by norm_num)

/-- Every pronunciation score is clamped to [0, 100]. -/
theorem analyzePronunciation_score_bounds (f : AudioProcessor.Features)
    (ta : Option Transcriber.TranscriptAnalysis) :
    0 ≤ (AIAnalyzer.analyzePronunciation f ta).score ∧
    (AIAnalyzer.analyzePronunciation f ta).score ≤ 100 := by
  obtain ⟨x, hx⟩ : ∃ x, (AIAnalyzer.analyzePronunciation f ta).score
      = jsRound (min 100 (max 0 x)) := ⟨_, rfl⟩
  rw [hx]; exact jsRound_clamp_bounds x

/-- Every fluency score is clamped to [0, 100]. -/
theorem analyzeFluency_score_bounds (f : AudioProcessor.Features)
    (ta : Option Transcriber.TranscriptAnalysis) :
    0 ≤ (AIAnalyzer.analyzeFluency f ta).score ∧
    (AIAnalyzer.analyzeFluency f ta).score ≤ 100 := by
  obtain ⟨x, hx⟩ : ∃ x, (AIAnalyzer.analyzeFluency f ta).score
      = jsRound (min 100 (max 0 x)) := ⟨_, rfl⟩
  rw [hx]; exact jsRound_clamp_bounds x

/-- Every vocabulary score is clamped to [0, 100]. -/
theorem analyzeVocabulary_score_bounds (f : AudioProcessor.Features) (topic : String)
    (ta : Option Transcriber.TranscriptAnalysis) :
    0 ≤ (AIAnalyzer.analyzeVocabulary f topic ta).score ∧
    (AIAnalyzer.analyzeVocabulary f topic ta).score ≤ 100 := by
  obtain ⟨x, hx⟩ : ∃ x, (AIAnalyzer.analyzeVocabulary f topic ta).score
      = jsRound (min 100 (max 0 x)) := ⟨_, rfl⟩
  rw [hx]; exact jsRound_clamp_bounds x

/-- Every grammar score is clamped to [0, 100]. -/
theorem analyzeGrammar_score_bounds (f : AudioProcessor.Features)
    (ta : Option Transcriber.TranscriptAnalysis) :
    0 ≤ (AIAnalyzer.analyzeGrammar f ta).score ∧
    (AIAnalyzer.analyzeGrammar f ta).score ≤ 100 := by
  obtain ⟨x, hx⟩ : ∃ x, (AIAnalyzer.analyzeGrammar f ta).score
      = jsRound (min 100 (max 0 x)) := ⟨_, rfl⟩
  rw [hx]; exact jsRound_clamp_bounds x

/-- Every coherence score is clamped to [0, 100]. -/
theorem analyzeCoherence_score_bounds (f : AudioProcessor.Features)
    (ta : Option Transcriber.TranscriptAnalysis) :
    0 ≤ (AIAnalyzer.analyzeCoherence f ta).score ∧
    (AIAnalyzer.analyzeCoherence f ta).score ≤ 100 := by
  obtain ⟨x, hx⟩ : ∃ x, (AIAnalyzer.analyzeCoherence f ta).score
      = jsRound (min 100 (max 0 x)) := ⟨_, rfl⟩
  rw [hx]; exact jsRound_clamp_bounds x

/-- The time-management banding stays in [0, 100]. -/
theorem analyzeTimeManagement_score_bounds (f : AudioProcessor.Features) :
    0 ≤ (AIAnalyzer.analyzeTimeManagement f).score ∧
    (AIAnalyzer.analyzeTimeManagement f).score ≤ 100 := by
  simp only [AIAnalyzer.analyzeTimeManagement]
  split_ifs <;> norm_num

/-- The overall score is clamped to [0, 100]. -/
theorem calculateOverallScore_bounds (l : List (AIAnalyzer.Skill × ℚ)) :
    0 ≤ AIAnalyzer.calculateOverallScore l ∧ AIAnalyzer.calculateOverallScore l ≤ 100 := by
  obtain ⟨x, hx⟩ : ∃ x, AIAnalyzer.calculateOverallScore l
      = jsRound (min 100 (max 0 x)) := ⟨_, rfl⟩
  rw [hx]; exact jsRound_clamp_bounds x

/-- The weighted sum of the overall score does not depend on the entry
order of the skill-score map. -/
theorem calculateOverallScore_perm (l lp : List (AIAnalyzer.Skill × ℚ)) (h : l.Perm lp) :
    AIAnalyzer.calculateOverallScore l = AIAnalyzer.calculateOverallScore lp := by
  have hs : (l.map (fun p => jsNumOr p.2 0 * AIAnalyzer.weights p.1)).sum
      = (lp.map (fun p => jsNumOr p.2 0 * AIAnalyzer.weights p.1)).sum :=
    (h.map _).sum_eq
  simp only [AIAnalyzer.calculateOverallScore, hs]

/-- C8: for all `FeatureSet`/`TranscriptAnalysis` inputs every skill score
lies in [0,100], the overall score lies in [0,100], and the overall score
is invariant under any reordering of the entries of the skill-score map. -/
theorem C8_scores_bounded_overall_perm (f : AudioProcessor.Features)
    (ta : Option Transcriber.TranscriptAnalysis) (topic : String)
    (l lp : List (AIAnalyzer.Skill × ℚ)) (h : l.Perm lp) :
    (0 ≤ (AIAnalyzer.analyzePronunciation f ta).score ∧
      (AIAnalyzer.analyzePronunciation f ta).score ≤ 100) ∧
    (0 ≤ (AIAnalyzer.analyzeFluency f ta).score ∧
      (AIAnalyzer.analyzeFluency f ta).score ≤ 100) ∧
    (0 ≤ (AIAnalyzer.analyzeVocabulary f topic ta).score ∧
      (AIAnalyzer.analyzeVocabulary f topic ta).score ≤ 100) ∧
    (0 ≤ (AIAnalyzer.analyzeGrammar f ta).score ∧
      (AIAnalyzer.analyzeGrammar f ta).score ≤ 100) ∧
    (0 ≤ (AIAnalyzer.analyzeCoherence f ta).score ∧
      (AIAnalyzer.analyzeCoherence f ta).score ≤ 100) ∧
    (0 ≤ (AIAnalyzer.analyzeTimeManagement f).score ∧
      (AIAnalyzer.analyzeTimeManagement f).score ≤ 100) ∧
    (0 ≤ AIAnalyzer.calculateOverallScore l ∧ AIAnalyzer.calculateOverallScore l ≤ 100) ∧
    AIAnalyzer.calculateOverallScore l = AIAnalyzer.calculateOverallScore lp :=
  ⟨analyzePronunciation_score_bounds f ta, analyzeFluency_score_bounds f ta,
   analyzeVocabulary_score_bounds f topic ta, analyzeGrammar_score_bounds f ta,
   analyzeCoherence_score_bounds f ta, analyzeTimeManagement_score_bounds f,
   calculateOverallScore_bounds l, calculateOverallScore_perm l lp h⟩

/-- Witness for C8: the all-zero feature set, no transcript, topic
`"custom"`, and a two-entry score map against its swap. -/
theorem C8_witness :
    (0 ≤ (AIAnalyzer.analyzePronunciation ⟨0, 0, "", 0, 0, 0, 0, 0, 0, 0, 0, 0, 0, 0⟩ none).score ∧
      (AIAnalyzer.analyzePronunciation ⟨0, 0, "", 0, 0, 0, 0, 0, 0, 0, 0, 0, 0, 0⟩ none).score ≤ 100) ∧
    (0 ≤ (AIAnalyzer.analyzeFluency ⟨0, 0, "", 0, 0, 0, 0, 0, 0, 0, 0, 0, 0, 0⟩ none).score ∧
      (AIAnalyzer.analyzeFluency ⟨0, 0, "", 0, 0, 0, 0, 0, 0, 0, 0, 0, 0, 0⟩ none).score ≤ 100) ∧
    (0 ≤ (AIAnalyzer.analyzeVocabulary ⟨0, 0, "", 0, 0, 0, 0, 0, 0, 0, 0, 0, 0, 0⟩ "custom" none).score ∧
      (AIAnalyzer.analyzeVocabulary ⟨0, 0, "", 0, 0, 0, 0, 0, 0, 0, 0, 0, 0, 0⟩ "custom" none).score ≤ 100) ∧
    (0 ≤ (AIAnalyzer.analyzeGrammar ⟨0, 0, "", 0, 0, 0, 0, 0, 0, 0, 0, 0, 0, 0⟩ none).score ∧
      (AIAnalyzer.analyzeGrammar ⟨0, 0, "", 0, 0, 0, 0, 0, 0, 0, 0, 0, 0, 0⟩ none).score ≤ 100) ∧
    (0 ≤ (AIAnalyzer.analyzeCoherence ⟨0, 0, "", 0, 0, 0, 0, 0, 0, 0, 0, 0, 0, 0⟩ none).score ∧
      (AIAnalyzer.analyzeCoherence ⟨0, 0, "", 0, 0, 0, 0, 0, 0, 0, 0, 0, 0, 0⟩ none).score ≤ 100) ∧
    (0 ≤ (AIAnalyzer.analyzeTimeManagement ⟨0, 0, "", 0, 0, 0, 0, 0, 0, 0, 0, 0, 0, 0⟩).score ∧
      (AIAnalyzer.analyzeTimeManagement ⟨0, 0, "", 0, 0, 0, 0, 0, 0, 0, 0, 0, 0, 0⟩).score ≤ 100) ∧
    (0 ≤ AIAnalyzer.calculateOverallScore
        [(AIAnalyzer.Skill.time, 60), (AIAnalyzer.Skill.pronunciation, 70)] ∧
      AIAnalyzer.calculateOverallScore
        [(AIAnalyzer.Skill.time, 60), (AIAnalyzer.Skill.pronunciation, 70)] ≤ 100) ∧
    AIAnalyzer.calculateOverallScore
      [(AIAnalyzer.Skill.time, 60), (AIAnalyzer.Skill.pronunciation, 70)] =
    AIAnalyzer.calculateOverallScore
      [(AIAnalyzer.Skill.pronunciation, 70), (AIAnalyzer.Skill.time, 60)] :=
  C8_scores_bounded_overall_perm ⟨0, 0, "", 0, 0, 0, 0, 0, 0, 0, 0, 0, 0, 0⟩ none "custom"
    [(AIAnalyzer.Skill.time, 60), (AIAnalyzer.Skill.pronunciation, 70)]
    [(AIAnalyzer.Skill.pronunciation, 70), (AIAnalyzer.Skill.time, 60)]
    (List.Perm.swap (AIAnalyzer.Skill.pronunciation, 70) (AIAnalyzer.Skill.time, 60) [])

/-- C9: the scoring engine is deterministic — two runs on identical feature
set, transcript analysis (or both absent) and topic agree on every field of
the `Assessment` except the caller-supplied timestamp, which no other field
depends on. -/
theorem C9_analyzeFullSpeaking_deterministic (f : AudioProcessor.Features) (topic : String)
    (ta : Option Transcriber.TranscriptAnalysis) (t1 t2 : String) :
    { AIAnalyzer.analyzeFullSpeaking f topic ta t1 with timestamp := "" } =
    { AIAnalyzer.analyzeFullSpeaking f topic ta t2 with timestamp := "" } := rfl

/-- A conditional between two nonnegative integers is nonnegative. -/
theorem ite_nonneg_int (c : Prop) [Decidable c] (x y : ℤ) (hx : 0 ≤ x) (hy : 0 ≤ y) :
    0 ≤ if c then x else y := by
  split <;> assumption

/-- A 50-based score with four nonnegative additive bonuses, capped at 100,
stays in [50, 100]. -/
theorem min100_base50_bounds4 (a b c d : ℤ) (ha : 0 ≤ a) (hb : 0 ≤ b) (hc : 0 ≤ c)
    (hd : 0 ≤ d) :
    50 ≤ min 100 (50 + a + b + c + d) ∧ min 100 (50 + a + b + c + d) ≤ 100 :=
  ⟨le_min (by norm_num) (by omega), min_le_left _ _⟩

/-- A 50-based score with three nonnegative additive bonuses, capped at 100,
stays in [50, 100]. -/
theorem min100_base50_bounds3 (a b c : ℤ) (ha : 0 ≤ a) (hb : 0 ≤ b) (hc : 0 ≤ c) :
    50 ≤ min 100 (50 + a + b + c) ∧ min 100 (50 + a + b + c) ≤ 100 :=
  ⟨le_min (by norm_num) (by omega), min_le_left _ _⟩

/-- C10: for every nonempty input text both indicator scores start at the
50 baseline and only gain additive bonuses capped at 100, so they lie in
[50, 100]. -/
theorem C10_indicator_scores_range (text : String) (h : text ≠ "") :
    (50 ≤ (Transcriber.analyzeGrammarIndicators text).score ∧
      (Transcriber.analyzeGrammarIndicators text).score ≤ 100) ∧
    (50 ≤ (Transcriber.analyzeCoherenceIndicators text).score ∧
      (Transcriber.analyzeCoherenceIndicators text).score ≤ 100) := by
  constructor
  · exact min100_base50_bounds4 _ _ _ _
      (ite_nonneg_int _ _ _ (by norm_num) le_rfl)
      (ite_nonneg_int _ _ _ (by norm_num) le_rfl)
      (ite_nonneg_int _ _ _ (by norm_num) le_rfl)
      (ite_nonneg_int _ _ _ (by norm_num) le_rfl)
  · exact min100_base50_bounds3 _ _ _
      (ite_nonneg_int _ _ _ (by norm_num) le_rfl)
      (ite_nonneg_int _ _ _ (by norm_num) le_rfl)
      (ite_nonneg_int _ _ _ (by positivity) le_rfl)

/-- Witness for C10 at the concrete text `"hello"`. -/
theorem C10_witness :
    (50 ≤ (Transcriber.analyzeGrammarIndicators "hello").score ∧
      (Transcriber.analyzeGrammarIndicators "hello").score ≤ 100) ∧
    (50 ≤ (Transcriber.analyzeCoherenceIndicators "hello").score ∧
      (Transcriber.analyzeCoherenceIndicators "hello").score ≤ 100) :=
  C10_indicator_scores_range "hello" (by decide)
